import Mathlib

/-!
# Verification of the Integration & Enterprise-Automation Reliability Subsystem

Shallow embedding of the integration queue, idempotency cache, hash-chained
audit ledger and enterprise autopilot of `backend/main.py` (with the earlier
snapshot `backend/app.py` where noted), together with the spec-modelled
dead-letter flush and health snapshot whose implementation snapshot is not in
the source tree (its tests in `backend/tests/test_integration_backend.py`
reference `INTEGRATION_MAX_ATTEMPTS`, a `dead_lettered` flush field and a
`dead_letter_total` metric).

Machine-level conventions: Python dictionaries and JSON documents are embedded
as the mutual inductive `Json`; 32-bit words are `Nat` reduced modulo `2 ^ 32`;
the outbound HTTP effect is a function parameter (`Net`) returning the same
outcome alternatives the code distinguishes (`urlopen` success, `HTTPError`,
`URLError`, other exception); `uuid.uuid4()` and `utc_now()` results enter as
explicit string parameters.
-/

namespace Testzak

-- Embedded JSON / Python-dict values. Mutual with its array and object
-- spines so that all functions over it are structural (kernel-reducible).
mutual

inductive Json where
  | null : Json
  | bool (b : Bool) : Json
  | num (n : Int) : Json
  | str (s : String) : Json
  | arr (items : JsonArr) : Json
  | obj (fields : JsonObj) : Json

inductive JsonArr where
  | nil : JsonArr
  | cons (hd : Json) (tl : JsonArr) : JsonArr

inductive JsonObj where
  | nil : JsonObj
  | cons (key : String) (val : Json) (tl : JsonObj) : JsonObj

end

/-- Whitespace test for Python `str.strip()` (ASCII whitespace). -/
def isPySpace (c : Char) : Bool :=
  c.isWhitespace || c.toNat = 11 || c.toNat = 12

/-- Python `str.strip()`. -/
def pyStrip (s : String) : String :=
  String.mk (((s.data.dropWhile isPySpace).reverse.dropWhile isPySpace).reverse)

/-- Python `s[:n]` on strings, by characters (reduction-friendly). -/
def strTake (s : String) (n : Nat) : String :=
  String.mk (s.data.take n)

/-- Is the first character list a prefix of the second. -/
def charsPrefixOf : List Char → List Char → Bool
  | [], _ => true
  | _, [] => false
  | a :: as, b :: bs => a == b && charsPrefixOf as bs

/-- Python `str.startswith(pre)`. -/
def strStartsWith (s pre : String) : Bool :=
  charsPrefixOf pre.data s.data

/-- Code-point comparison of character lists (Python string `<`). -/
def charsLt : List Char → List Char → Bool
  | [], [] => false
  | [], _ :: _ => true
  | _ :: _, [] => false
  | a :: as, b :: bs =>
    if a.toNat < b.toNat then true
    else if b.toNat < a.toNat then false
    else charsLt as bs

/-- Python string `<` by Unicode code point (the `sort_keys` order). -/
def strLt (a b : String) : Bool :=
  charsLt a.data b.data

/-- Scanner for Python `str.split("->")`. -/
def splitArrowGo (acc : List Char) : List Char → List String
  | [] => [String.mk acc.reverse]
  | '-' :: '>' :: rest => String.mk acc.reverse :: splitArrowGo [] rest
  | c :: rest => splitArrowGo (c :: acc) rest

/-- Python `str.split("->")` (the approval-route separator). -/
def splitArrow (s : String) : List String :=
  splitArrowGo [] s.data

/-- Length of an embedded JSON array (Python `len`). -/
def JsonArr.length : JsonArr → Nat
  | .nil => 0
  | .cons _ tl => 1 + tl.length

/-- Key lookup in an embedded dict (`key in d` / `d[key]`). -/
def JsonObj.find : JsonObj → String → Option Json
  | .nil, _ => none
  | .cons k v tl, key => if k = key then some v else tl.find key

/-- Python `{**d, key: v}`: replace `key` in place if present, else append. -/
def JsonObj.setKey : JsonObj → String → Json → JsonObj
  | .nil, key, v => .cons key v .nil
  | .cons k w tl, key, v =>
    if k = key then .cons k v tl else .cons k w (tl.setKey key v)

/-- Remove a key from an embedded dict (used only to state determinism
up to generated identifiers). -/
def JsonObj.dropKey : JsonObj → String → JsonObj
  | .nil, _ => .nil
  | .cons k v tl, key => if k = key then tl.dropKey key else .cons k v (tl.dropKey key)

/-- Insert one key/value pair into a key-sorted object spine
(Python `sort_keys=True` sorts by Unicode code point). -/
def JsonObj.insertSorted (key : String) (v : Json) : JsonObj → JsonObj
  | .nil => .cons key v .nil
  | .cons k w tl =>
    if strLt key k then .cons key v (.cons k w tl) else .cons k w (insertSorted key v tl)

/-- Sort an object spine by key (insertion sort). -/
def JsonObj.sortByKey : JsonObj → JsonObj
  | .nil => .nil
  | .cons k v tl => (tl.sortByKey).insertSorted k v

/-- Two-digit lowercase hex of a byte nibble. -/
def hexDigit (n : Nat) : Char :=
  if n < 10 then Char.ofNat (48 + n) else Char.ofNat (87 + n)

/-- `json.dumps` escaping of one character (`ensure_ascii=False`): quote,
backslash, and the control characters; everything else verbatim. -/
def jsonEscapeChar (c : Char) : String :=
  if c = '"' then "\\\""
  else if c = '\\' then "\\\\"
  else if c = '\n' then "\\n"
  else if c = '\t' then "\\t"
  else if c = '\r' then "\\r"
  else if c.toNat = 8 then "\\b"
  else if c.toNat = 12 then "\\f"
  else if c.toNat < 32 then
    "\\u00" ++ String.mk [hexDigit (c.toNat / 16), hexDigit (c.toNat % 16)]
  else String.mk [c]

/-- `json.dumps` rendering of a string literal. -/
def jsonEscape (s : String) : String :=
  "\"" ++ String.join (s.data.map jsonEscapeChar) ++ "\""

-- `json.dumps(value, ensure_ascii=False)` with Python's default separators
-- `", "` and `": "`, preserving dict insertion order (`sort_keys` not set).
mutual

def Json.dumps : Json → String
  | .null => "null"
  | .bool true => "true"
  | .bool false => "false"
  | .num n => toString n
  | .str s => jsonEscape s
  | .arr items => "[" ++ items.dumpsItems ++ "]"
  | .obj fields => "\x7b" ++ fields.dumpsFields ++ "\x7d"

def JsonArr.dumpsItems : JsonArr → String
  | .nil => ""
  | .cons x .nil => x.dumps
  | .cons x tl => x.dumps ++ ", " ++ tl.dumpsItems

def JsonObj.dumpsFields : JsonObj → String
  | .nil => ""
  | .cons k v .nil => jsonEscape k ++ ": " ++ v.dumps
  | .cons k v tl => jsonEscape k ++ ": " ++ v.dumps ++ ", " ++ tl.dumpsFields

end

-- Recursive key canonicalization: sort every object's keys, values first
-- (so the recursion is structural), then the spine.
mutual

def Json.sortKeys : Json → Json
  | .null => .null
  | .bool b => .bool b
  | .num n => .num n
  | .str s => .str s
  | .arr items => .arr items.sortKeysItems
  | .obj fields => .obj fields.sortKeysFields.sortByKey

def JsonArr.sortKeysItems : JsonArr → JsonArr
  | .nil => .nil
  | .cons x tl => .cons x.sortKeys tl.sortKeysItems

def JsonObj.sortKeysFields : JsonObj → JsonObj
  | .nil => .nil
  | .cons k v tl => .cons k v.sortKeys tl.sortKeysFields

end

/-- `json.dumps(value, ensure_ascii=False, sort_keys=True)`: keys sorted
recursively at every object, rendered with the default separators. -/
def Json.dumpsSorted (j : Json) : String :=
  j.sortKeys.dumps

/-- Python truthiness (`if value:`) of an embedded JSON value. -/
def Json.truthy : Json → Bool
  | .null => false
  | .bool b => b
  | .num n => n != 0
  | .str s => !s.isEmpty
  | .arr .nil => false
  | .arr _ => true
  | .obj .nil => false
  | .obj _ => true

/-- Python `str(value)` for the scalar shapes the code passes to `str`
(strings pass through; containers fall back to their JSON rendering, a path
no verified claim exercises). -/
def Json.pyStr : Json → String
  | .str s => s
  | .num n => toString n
  | .bool true => "True"
  | .bool false => "False"
  | .null => "None"
  | j => j.dumps



/-- Reduce to a 32-bit word. -/
def m32 (x : Nat) : Nat := x % 4294967296

/-- Right rotation of a 32-bit word. -/
def rotr (n x : Nat) : Nat := m32 (Nat.lor (x >>> n) (x <<< (32 - n)))

/-- Bitwise complement of a 32-bit word. -/
def not32 (x : Nat) : Nat := Nat.xor x 4294967295

def sigma0 (x : Nat) : Nat := Nat.xor (Nat.xor (rotr 7 x) (rotr 18 x)) (x >>> 3)
def sigma1 (x : Nat) : Nat := Nat.xor (Nat.xor (rotr 17 x) (rotr 19 x)) (x >>> 10)
def bigSigma0 (x : Nat) : Nat := Nat.xor (Nat.xor (rotr 2 x) (rotr 13 x)) (rotr 22 x)
def bigSigma1 (x : Nat) : Nat := Nat.xor (Nat.xor (rotr 6 x) (rotr 11 x)) (rotr 25 x)
def ch (e f g : Nat) : Nat := Nat.xor (Nat.land e f) (Nat.land (not32 e) g)
def maj (a b c : Nat) : Nat := Nat.xor (Nat.xor (Nat.land a b) (Nat.land a c)) (Nat.land b c)

/-- The 64 SHA-256 round constants. -/
def shaK : List Nat :=
  [1116352408, 1899447441, 3049323471, 3921009573, 961987163, 1508970993, 2453635748, 2870763221,
   3624381080, 310598401, 607225278, 1426881987, 1925078388, 2162078206, 2614888103, 3248222580,
   3835390401, 4022224774, 264347078, 604807628, 770255983, 1249150122, 1555081692, 1996064986,
   2554220882, 2821834349, 2952996808, 3210313671, 3336571891, 3584528711, 113926993, 338241895,
   666307205, 773529912, 1294757372, 1396182291, 1695183700, 1986661051, 2177026350, 2456956037,
   2730485921, 2820302411, 3259730800, 3345764771, 3516065817, 3600352804, 4094571909, 275423344,
   430227734, 506948616, 659060556, 883997877, 958139571, 1322822218, 1537002063, 1747873779,
   1955562222, 2024104815, 2227730452, 2361852424, 2428436474, 2756734187, 3204031479, 3329325298]

/-- Running hash state: eight 32-bit words. -/
structure Sha256State where
  a : Nat
  b : Nat
  c : Nat
  d : Nat
  e : Nat
  f : Nat
  g : Nat
  h : Nat

def shaInit : Sha256State :=
  ⟨1779033703, 3144134277, 1013904242, 2773480762, 1359893119, 2600822924, 528734635, 1541459225⟩

/-- One compression round. -/
def shaRound (st : Sha256State) (kw : Nat × Nat) : Sha256State :=
  let t1 := m32 (st.h + bigSigma1 st.e + ch st.e st.f st.g + kw.1 + kw.2)
  let t2 := m32 (bigSigma0 st.a + maj st.a st.b st.c)
  ⟨m32 (t1 + t2), st.a, st.b, st.c, m32 (st.d + t1), st.e, st.f, st.g⟩

/-- Big-endian bytes of a number, fixed width. -/
def beBytes : Nat → Nat → List Nat
  | 0, _ => []
  | w + 1, n => (n >>> (8 * w)) % 256 :: beBytes w n

/-- Group bytes into 64-byte blocks (fuel-driven so it stays structural). -/
def chunksGo : Nat → List Nat → List (List Nat)
  | 0, _ => []
  | _, [] => []
  | fuel + 1, l => l.take 64 :: chunksGo fuel (l.drop 64)

def chunks64 (l : List Nat) : List (List Nat) := chunksGo l.length l

/-- SHA-256 padding: append `128`, zeros to 56 mod 64, then the bit length
as 8 big-endian bytes. -/
def shaPad (msg : List Nat) : List Nat :=
  let len := msg.length
  let zeros := (64 + 56 - (len + 1) % 64) % 64
  msg ++ 128 :: List.replicate zeros 0 ++ beBytes 8 (8 * len)

/-- 16 big-endian 32-bit words from a 64-byte block. -/
def blockWords : List Nat → List Nat
  | b0 :: b1 :: b2 :: b3 :: rest =>
    (((b0 * 256 + b1) * 256 + b2) * 256 + b3) :: blockWords rest
  | _ => []

/-- Message-schedule extension, keeping the word list most-recent-first. -/
def extendRev : Nat → List Nat → List Nat
  | 0, acc => acc
  | fuel + 1, acc =>
    let w := m32 (sigma1 (acc.getD 1 0) + acc.getD 6 0 + sigma0 (acc.getD 14 0) + acc.getD 15 0)
    extendRev fuel (w :: acc)

/-- The 64-word message schedule of one block. -/
def schedule (block : List Nat) : List Nat :=
  (extendRev 48 (blockWords block).reverse).reverse

/-- Compress one block into the running state. -/
def shaCompress (st : Sha256State) (block : List Nat) : Sha256State :=
  let fin := ((schedule block).zip shaK).foldl shaRound st
  ⟨m32 (st.a + fin.a), m32 (st.b + fin.b), m32 (st.c + fin.c), m32 (st.d + fin.d),
   m32 (st.e + fin.e), m32 (st.f + fin.f), m32 (st.g + fin.g), m32 (st.h + fin.h)⟩

/-- Lowercase hex rendering of a 32-bit word. -/
def hex8 (x : Nat) : String :=
  String.mk ((List.range 8).map fun i => hexDigit ((x >>> (28 - 4 * i)) % 16))

/-- SHA-256 of a byte list, as the usual lowercase hex digest. -/
def sha256Bytes (msg : List Nat) : String :=
  let fin := (chunks64 (shaPad msg)).foldl shaCompress shaInit
  hex8 fin.a ++ hex8 fin.b ++ hex8 fin.c ++ hex8 fin.d ++
    hex8 fin.e ++ hex8 fin.f ++ hex8 fin.g ++ hex8 fin.h

/-- UTF-8 encoding of one code point. -/
def utf8Char (n : Nat) : List Nat :=
  if n < 128 then [n]
  else if n < 2048 then [192 + n / 64, 128 + n % 64]
  else if n < 65536 then [224 + n / 4096, 128 + (n / 64) % 64, 128 + n % 64]
  else [240 + n / 262144, 128 + (n / 4096) % 64, 128 + (n / 64) % 64, 128 + n % 64]

/-- UTF-8 bytes of a string (`str.encode("utf-8")`). -/
def utf8 (s : String) : List Nat :=
  s.data.foldr (fun c acc => utf8Char c.toNat ++ acc) []

/-- `hashlib.sha256(text.encode("utf-8")).hexdigest()`. -/
def sha256hex (s : String) : String :=
  sha256Bytes (utf8 s)

/-- A queued integration event, as built by `append_integration_record`
(`backend/main.py`). Keys the code adds later (`last_attempt_at`, `sent_at`,
`last_result`) are `Option`-valued and absent (`none`) at creation;
`deadLetterAt` belongs to the spec-modelled dead-letter transition only. -/
structure Record where
  id : String
  kind : String
  source : String
  createdAt : String
  status : String
  attempts : Nat
  payload : Json
  transport : Json
  lastAttemptAt : Option String := none
  sentAt : Option String := none
  lastResult : Option String := none
  deadLetterAt : Option String := none

/-- One autopilot stage result, as built by `add_stage`. -/
structure StageResult where
  name : String
  ok : Bool
  detail : String
  data : Json

/-- One enterprise status history entry (`run_enterprise_autopilot`). -/
structure EntStatus where
  atTime : String
  procedureId : String
  summarySuccess : Nat
  summaryFailed : Nat
  summarySkipped : Nat
  stages : List StageResult

/-- The persistent store document. `queue`, `history` and
`enterprise_status` are the collections of `_default_integration_store`
(`backend/main.py`); `deadLetter` is the collection of the spec-modelled
dead-letter engine (spec section 3), untouched by the source-faithful
operations. -/
structure Store where
  queue : List Record := []
  history : List Record := []
  enterpriseStatus : List EntStatus := []
  deadLetter : List Record := []

/-- Outcome of one outbound `urlopen` call, the four alternatives the
`try/except` ladders of `_http_post_json` / `_http_get_json` distinguish. -/
inductive HttpOutcome where
  | success (status : Nat) (body : Json)
  | httpError (code : Nat) (body : Json)
  | urlError (reason : String)
  | failure (msg : String)

/-- The outbound HTTP effect: what the network answers for a given request.
`post` receives url, payload, token and extra headers; `get` url and token. -/
structure Net where
  post : String → Json → String → JsonObj → HttpOutcome
  get : String → String → HttpOutcome

/-- The environment-sourced configuration the subsystem reads
(`INTEGRATION_TARGET_WEBHOOK_URL`, `ENTERPRISE_SIMULATION_MODE`, and the
spec-modelled `INTEGRATION_MAX_ATTEMPTS`, default 5). -/
structure Cfg where
  targetWebhookUrl : String := ""
  simulationModeDefault : Bool := true
  maxAttempts : Nat := 5

/-- `_http_post_json` (`backend/main.py`): normalize every outcome to
`(ok, status_code, parsed_body)`; any 2xx status is `ok`. -/
def httpPostJson (net : Net) (url : String) (payload : Json) (token : String)
    (extraHeaders : JsonObj) : Bool × Nat × Json :=
  match net.post url payload token extraHeaders with
  | .success status body => (200 ≤ status && status < 300, status, body)
  | .httpError code body => (false, code, body)
  | .urlError reason => (false, 0, .obj (.cons "error" (.str ("url_error: " ++ reason)) .nil))
  | .failure msg => (false, 0, .obj (.cons "error" (.str msg) .nil))

/-- `_http_get_json` (`backend/main.py`), same normalization. -/
def httpGetJson (net : Net) (url : String) (token : String) : Bool × Nat × Json :=
  match net.get url token with
  | .success status body => (200 ≤ status && status < 300, status, body)
  | .httpError code body => (false, code, body)
  | .urlError reason => (false, 0, .obj (.cons "error" (.str ("url_error: " ++ reason)) .nil))
  | .failure msg => (false, 0, .obj (.cons "error" (.str msg) .nil))

/-- Python `lst[-n:]` for a possibly over-long list. -/
def lastSlice {α : Type} (n : Nat) (l : List α) : List α :=
  if l.length > n then l.drop (l.length - n) else l

/-- `append_integration_record` (`backend/main.py`): build a fresh queued
record, append it to `queue`, cap `queue` at its last 3000 entries.
`uuid.uuid4()` and `utc_now()` enter as `newId` and `now`. -/
def appendIntegrationRecord (store : Store) (kind : String) (payload : Json)
    (source : String) (transport : Json) (newId now : String) : Record × Store :=
  let record : Record :=
    { id := newId, kind := kind, source := source, createdAt := now,
      status := "queued", attempts := 0, payload := payload, transport := transport }
  (record, { store with queue := lastSlice 3000 (store.queue ++ [record]) })

/-- `record.get(key, default)` for the transport/payload dict guards
(`isinstance(..., dict)` else `{}`). -/
def asObj : Json → JsonObj
  | .obj fields => fields
  | _ => .nil

/-- `transport.get(key, default)` on the embedded dict. -/
def objGet (fields : JsonObj) (key : String) (dflt : Json) : Json :=
  (fields.find key).getD dflt

/-- `_dispatch_record` (`backend/main.py`): resolve the transport mode,
perform the outbound call, normalize to `(ok, diagnostic)`. -/
def dispatchRecord (cfg : Cfg) (net : Net) (now : String) (record : Record) :
    Bool × String :=
  let transport := asObj record.transport
  let mode := (objGet transport "mode" (.str "target_webhook")).pyStr |> pyStrip
  let payload := Json.obj (asObj record.payload)
  if mode = "target_webhook" then
    if cfg.targetWebhookUrl = "" then
      (false, "target_webhook_not_configured")
    else
      let envelope := Json.obj (.cons "app" (.str "tz_generator_backend")
        (.cons "event" (.str record.kind)
        (.cons "at" (.str now)
        (.cons "payload" payload .nil))))
      let r := httpPostJson net cfg.targetWebhookUrl envelope "" .nil
      (r.1, "http=" ++ toString r.2.1 ++ ";" ++ (strTake r.2.2.dumps 200))
  else if mode = "endpoint" then
    let url := (objGet transport "url" (.str "")).pyStr |> pyStrip
    if url = "" then
      (false, "endpoint_url_missing")
    else
      let token := (objGet transport "token" (.str "")).pyStr |> pyStrip
      let headers := asObj (objGet transport "headers" (.obj .nil))
      let r := httpPostJson net url payload token headers
      (r.1, "http=" ++ toString r.2.1 ++ ";" ++ (strTake r.2.2.dumps 200))
  else
    (false, "unsupported_transport_mode:" ++ mode)

/-- The `attempts`/`last_attempt_at` bump every processed record receives in
a flush pass (`backend/main.py`, flush loop step). -/
def bumped (now : String) (r : Record) : Record :=
  { r with attempts := r.attempts + 1, lastAttemptAt := some now }

/-- The successful-dispatch update (`status = "sent"`). -/
def markSent (now note : String) (r : Record) : Record :=
  { r with status := "sent", sentAt := some now, lastResult := some note }

/-- The failed-dispatch re-queue update (`status = "queued"`). -/
def markRequeued (note : String) (r : Record) : Record :=
  { r with status := "queued", lastResult := some note }

/-- The flush loop of `flush_integration_queue` (`backend/main.py`):
enumerate the queue; indices at or past `limit` pass through untouched to
`remained`; the rest are bumped, dispatched, and either appended to
`history` (success) or back to `remained` (failure). Returns
`((processed, success, failed), remained, history_appends)`. -/
def flushGo (cfg : Cfg) (net : Net) (now : String) (limit : Nat) :
    Nat → List Record → (Nat × Nat × Nat) × List Record × List Record
  | _, [] => ((0, 0, 0), [], [])
  | idx, item :: rest =>
    if limit ≤ idx then
      let r := flushGo cfg net now limit (idx + 1) rest
      (r.1, item :: r.2.1, r.2.2)
    else
      let item1 := bumped now item
      let d := dispatchRecord cfg net now item1
      if d.1 then
        let r := flushGo cfg net now limit (idx + 1) rest
        ((r.1.1 + 1, r.1.2.1 + 1, r.1.2.2), r.2.1, markSent now d.2 item1 :: r.2.2)
      else
        let r := flushGo cfg net now limit (idx + 1) rest
        ((r.1.1 + 1, r.1.2.1, r.1.2.2 + 1), markRequeued d.2 item1 :: r.2.1, r.2.2)

/-- The result dict of `flush_integration_queue` (`backend/main.py`). It has
no dead-letter field: the source-tree snapshot never dead-letters. -/
structure FlushResult where
  processed : Nat
  success : Nat
  failed : Nat
  queueRemaining : Nat
  targetConfigured : Bool

/-- `flush_integration_queue` (`backend/main.py`): run the loop over the
whole queue, cap `queue` at 3000 and `history` at 10000, return the counters. -/
def flushIntegrationQueue (cfg : Cfg) (net : Net) (now : String) (store : Store)
    (limit : Nat) : FlushResult × Store :=
  let r := flushGo cfg net now limit 0 store.queue
  let remained := lastSlice 3000 r.2.1
  let history := lastSlice 10000 (store.history ++ r.2.2)
  ({ processed := r.1.1, success := r.1.2.1, failed := r.1.2.2,
     queueRemaining := remained.length,
     targetConfigured := cfg.targetWebhookUrl != "" },
   { store with queue := remained, history := history })

/-- The dead-letter terminal update of the spec's flush state machine
(`status = "dead_letter"`, stamp `dead_letter_at`). -/
def markDeadLetter (now note : String) (r : Record) : Record :=
  { r with status := "dead_letter", deadLetterAt := some now, lastResult := some note }

/-- Modelled from the spec: the flush loop of the dead-letter queue engine
(spec section 4.3). The implementation snapshot carrying it is not in the
source tree — `backend/tests/test_integration_backend.py` monkeypatches its
`INTEGRATION_MAX_ATTEMPTS` and asserts its `dead_lettered` counter, but the
`flush_queue`/`flush_integration_queue` under `backend/` lack the branch.
Identical to `flushGo` except on dispatch failure: when the bumped
`attempts` has reached `cfg.maxAttempts`, the record moves to `dead_letter`
instead of being re-queued. Returns
`((processed, success, failed, dead_lettered), remained, history_appends,
dead_letter_appends)`. -/
def flushSpecGo (cfg : Cfg) (net : Net) (now : String) (limit : Nat) :
    Nat → List Record →
      (Nat × Nat × Nat × Nat) × List Record × List Record × List Record
  | _, [] => ((0, 0, 0, 0), [], [], [])
  | idx, item :: rest =>
    if limit ≤ idx then
      let r := flushSpecGo cfg net now limit (idx + 1) rest
      (r.1, item :: r.2.1, r.2.2)
    else
      let item1 := bumped now item
      let d := dispatchRecord cfg net now item1
      if d.1 then
        let r := flushSpecGo cfg net now limit (idx + 1) rest
        ((r.1.1 + 1, r.1.2.1 + 1, r.1.2.2.1, r.1.2.2.2),
         r.2.1, markSent now d.2 item1 :: r.2.2.1, r.2.2.2)
      else if cfg.maxAttempts ≤ item1.attempts then
        let r := flushSpecGo cfg net now limit (idx + 1) rest
        ((r.1.1 + 1, r.1.2.1, r.1.2.2.1 + 1, r.1.2.2.2 + 1),
         r.2.1, r.2.2.1, markDeadLetter now d.2 item1 :: r.2.2.2)
      else
        let r := flushSpecGo cfg net now limit (idx + 1) rest
        ((r.1.1 + 1, r.1.2.1, r.1.2.2.1 + 1, r.1.2.2.2),
         markRequeued d.2 item1 :: r.2.1, r.2.2.1, r.2.2.2)

/-- Modelled from the spec: the flush result with the `dead_lettered`
counter (spec section 4.3 step 6,
`{processed, success, failed, dead_lettered, queue_remaining,
target_configured}`). -/
structure FlushResultSpec where
  processed : Nat
  success : Nat
  failed : Nat
  deadLettered : Nat
  queueRemaining : Nat
  targetConfigured : Bool

/-- Modelled from the spec: `flush(limit)` of the dead-letter queue engine
(spec section 4.3; the snapshot implementing it is not under the source
tree, see `flushSpecGo`). Caps follow the bounded-collection rule of spec
section 3 with the same bounds the source snapshots use (3000 / 10000). -/
def flushSpec (cfg : Cfg) (net : Net) (now : String) (store : Store)
    (limit : Nat) : FlushResultSpec × Store :=
  let r := flushSpecGo cfg net now limit 0 store.queue
  let remained := lastSlice 3000 r.2.1
  let history := lastSlice 10000 (store.history ++ r.2.2.1)
  let dead := lastSlice 10000 (store.deadLetter ++ r.2.2.2)
  ({ processed := r.1.1, success := r.1.2.1, failed := r.1.2.2.1,
     deadLettered := r.1.2.2.2,
     queueRemaining := remained.length,
     targetConfigured := cfg.targetWebhookUrl != "" },
   { store with queue := remained, history := history, deadLetter := dead })

/-- The default staleness threshold of the health snapshot (spec section 6:
"a staleness threshold (default 3600s)"). -/
def stalenessThresholdDefault : Nat := 3600

/-- The health snapshot result shape (spec section 6). -/
structure HealthSnapshot where
  status : String
  queueTotal : Nat
  historyTotal : Nat
  deadLetterTotal : Nat
  oldestQueuedSeconds : Option Nat
  flush24hCounts : Json

/-- Modelled from the spec: `health_snapshot()` (spec section 6). No
endpoint in the source tree computes `status: degraded`,
`dead_letter_total`, `oldest_queued_seconds` or `flush_24h_counts`
(`health` and `enterprise_health` in `backend/main.py` return other
fields); the tests reference the richer metrics surface of the missing
snapshot. `ageSeconds` abstracts the clock arithmetic on the stored ISO
timestamps; `flush24h` abstracts the audit-log aggregation; the oldest
queued record is the queue front (insertion order). -/
def healthSnapshot (store : Store) (ageSeconds : String → Nat) (flush24h : Json)
    (threshold : Nat := stalenessThresholdDefault) : HealthSnapshot :=
  let oldest := store.queue.head?.map fun r => ageSeconds r.createdAt
  let stale := match oldest with
    | some age => threshold < age
    | none => false
  { status := if 0 < store.deadLetter.length || stale then "degraded" else "ok",
    queueTotal := store.queue.length,
    historyTotal := store.history.length,
    deadLetterTotal := store.deadLetter.length,
    oldestQueuedSeconds := oldest,
    flush24hCounts := flush24h }

/-- One row of the `immutable_audit_chain` table
(`_append_immutable_audit`, `backend/main.py`). -/
structure ChainEntry where
  atTime : String
  action : String
  payloadJson : String
  prevHash : String
  hash : String

/-- The hashed base string `f"{at}|{action}|{payload_json}|{prev_hash}"`. -/
def chainBase (atTime action payloadJson prevHash : String) : String :=
  atTime ++ "|" ++ action ++ "|" ++ payloadJson ++ "|" ++ prevHash

/-- The previous-hash link: the stored hash of the last entry, or the
`"genesis"` sentinel for an empty chain. -/
def chainTip (chain : List ChainEntry) : String :=
  match chain.getLast? with
  | some e => e.hash
  | none => "genesis"

/-- `_append_immutable_audit` (`backend/main.py`): link to the last stored
hash (or `"genesis"`), canonicalize the payload with
`json.dumps(..., sort_keys=True)`, digest with SHA-256, insert the row. -/
def appendImmutableAudit (chain : List ChainEntry) (action : String)
    (payload : Json) (atTime : String) : ChainEntry × List ChainEntry :=
  let prevHash := chainTip chain
  let payloadJson := payload.dumpsSorted
  let digest := sha256hex (chainBase atTime action payloadJson prevHash)
  let entry : ChainEntry :=
    { atTime := atTime, action := action, payloadJson := payloadJson,
      prevHash := prevHash, hash := digest }
  (entry, chain ++ [entry])

/-- A chain grown by repeated `_append_immutable_audit` calls from a given
starting chain, one `(at, action, payload)` triple per call. -/
def buildChainFrom (chain : List ChainEntry) :
    List (String × String × Json) → List ChainEntry
  | [] => chain
  | (t, a, p) :: rest => buildChainFrom (appendImmutableAudit chain a p t).2 rest

/-- The chain grown from the empty table. -/
def buildChain (inputs : List (String × String × Json)) : List ChainEntry :=
  buildChainFrom [] inputs

/-- The spec's integrity check (spec section 3, Chain Entry invariant):
walking from `genesis`, each entry's `prev_hash` must equal the running
hash and its stored `hash` must equal the recomputed digest of its own
`{at, action, payload_snapshot, prev_hash}`. -/
def verifyChainFrom (prev : String) : List ChainEntry → Bool
  | [] => true
  | e :: rest =>
    e.prevHash == prev &&
    e.hash == sha256hex (chainBase e.atTime e.action e.payloadJson e.prevHash) &&
    verifyChainFrom e.hash rest

/-- Whole-chain verification from the genesis sentinel. -/
def verifyChain (chain : List ChainEntry) : Bool :=
  verifyChainFrom "genesis" chain

/-- Forward recomputation of every hash from `genesis`, using only each
entry's `{at, action, payload_snapshot}` and the running previous hash:
the digests an independent verifier derives. -/
def recomputeHashes (prev : String) : List ChainEntry → List String
  | [] => []
  | e :: rest =>
    let h := sha256hex (chainBase e.atTime e.action e.payloadJson prev)
    h :: recomputeHashes h rest

/-- `_cfg(settings, camelKey, snakeKey, default)` (`backend/main.py`):
first present key wins, value returned even when falsy. -/
def cfgLookup (fields : JsonObj) (k1 k2 : String) (dflt : Json) : Json :=
  match fields.find k1 with
  | some v => v
  | none =>
    match fields.find k2 with
    | some v => v
    | none => dflt

/-- Python `url.rstrip("/")`. -/
def rstripSlash (s : String) : String :=
  String.mk ((s.data.reverse.dropWhile fun c => c = '/').reverse)

/-- Python `str.upper()` on the ASCII hex of `uuid4().hex`. -/
def upper (s : String) : String :=
  String.mk (s.data.map Char.toUpper)

/-- `add_stage` (`backend/main.py`): detail truncated to 240 characters,
`data or {}`. -/
def mkStage (name : String) (ok : Bool) (detail : String) (data : Json) :
    StageResult :=
  { name := name, ok := ok, detail := strTake detail 240, data := data }

/-- An embedded JSON array of strings. -/
def strArr : List String → JsonArr
  | [] => .nil
  | s :: rest => .cons (.str s) (strArr rest)

/-- The item count of the simulated resource-planning sync:
`len(payload.get("items", [])) if isinstance(payload.get("items"), list)
else 1` (`backend/main.py`). -/
def itemsCount (payload : Json) : Nat :=
  match (asObj payload).find "items" with
  | some (.arr a) => a.length
  | _ => 1

/-- The per-run oracle values of `run_enterprise_autopilot`: the network,
`utc_now()`, and one value per `uuid.uuid4()` call site (the retry-record
id of each stage, and the two simulated pseudo-identifiers). -/
structure AutoEnv where
  net : Net
  now : String
  etpRetryId : String
  ecmRetryId : String
  erpRetryId : String
  cryptoRetryId : String
  ecmSimHex : String
  cryptoSimHex : String

/-- The aggregate result dict of `run_enterprise_autopilot`. -/
structure AutopilotResult where
  ok : Bool
  stagesTotal : Nat
  stagesSuccess : Nat
  stagesFailed : Nat
  stagesSkipped : Nat
  queuedRetryRecords : List String
  stages : List StageResult

/-- `run_enterprise_autopilot` (`backend/main.py`): four fixed stages in
order — trading-platform status sync, approval submission,
resource-planning sync, cryptographic signing — each configured / simulated
/ skipped, with a retry record enqueued on a failed live call; then the
aggregation and the bounded `enterprise_status` history append. -/
def runEnterpriseAutopilot (cfg : Cfg) (env : AutoEnv) (payload settings : Json)
    (procedureId : String) (store : Store) : AutopilotResult × Store :=
  let cfgO := asObj settings
  let simulationMode :=
    (cfgLookup cfgO "simulationMode" "simulation_mode" (.bool cfg.simulationModeDefault)).truthy
  let etpEnabled :=
    (cfgLookup cfgO "etpBidirectionalStatus" "etp_bidirectional_status" (.bool true)).truthy
  let etpEndpoint := (cfgLookup cfgO "etpEndpoint" "etp_endpoint" (.str "")).pyStr |> pyStrip
  let etpToken := (cfgLookup cfgO "etpToken" "etp_token" (.str "")).pyStr |> pyStrip
  let s1 :=
    if etpEnabled && etpEndpoint != "" then
      let statusUrl := rstripSlash etpEndpoint ++ "/status" ++
        (if procedureId != "" then "/" ++ procedureId else "")
      let g := httpGetJson env.net statusUrl etpToken
      if g.1 then
        (mkStage "etp.status.sync" true ("http=" ++ toString g.2.1) g.2.2, [], store)
      else
        let retryPayload := Json.obj (.cons "procedure_id" (.str procedureId)
          (.cons "payload" payload .nil))
        let transport := Json.obj (.cons "mode" (.str "endpoint")
          (.cons "url" (.str statusUrl)
          (.cons "token" (.str etpToken)
          (.cons "headers" (Json.obj (.cons "X-Integration-Profile"
            (.str (objGet (asObj payload) "profile" (.str "eis")).pyStr) .nil)) .nil))))
        let ar := appendIntegrationRecord store "enterprise.etp.status.sync"
          retryPayload "enterprise_autopilot" transport env.etpRetryId env.now
        (mkStage "etp.status.sync" false ("http=" ++ toString g.2.1) g.2.2,
         [ar.1.id], ar.2)
    else if etpEnabled && simulationMode then
      (mkStage "etp.status.sync" true "simulated"
        (Json.obj (.cons "procedure_id" (.str procedureId)
          (.cons "status" (.str "draft")
          (.cons "source" (.str "simulation_mode") .nil)))), [], store)
    else
      (mkStage "etp.status.sync" false "skipped_not_configured" (.obj .nil), [], store)
  let store1 := s1.2.2
  let ecmEndpoint := (cfgLookup cfgO "ecmEndpoint" "ecm_endpoint" (.str "")).pyStr |> pyStrip
  let ecmToken := (cfgLookup cfgO "ecmToken" "ecm_token" (.str "")).pyStr |> pyStrip
  let ecmRoute := (cfgLookup cfgO "ecmApprovalRoute" "ecm_approval_route" (.str "")).pyStr |> pyStrip
  let s2 :=
    if ecmEndpoint != "" then
      let url := rstripSlash ecmEndpoint ++ "/approvals"
      let body := Json.obj (.cons "route" (.str ecmRoute)
        (.cons "payload" payload (.cons "procedure_id" (.str procedureId) .nil)))
      let p := httpPostJson env.net url body ecmToken .nil
      if p.1 then
        (mkStage "ecm.approval.submit" true ("http=" ++ toString p.2.1) p.2.2, [], store1)
      else
        let transport := Json.obj (.cons "mode" (.str "endpoint")
          (.cons "url" (.str url)
          (.cons "token" (.str ecmToken)
          (.cons "headers" (.obj .nil) .nil))))
        let ar := appendIntegrationRecord store1 "enterprise.ecm.approval.submit"
          body "enterprise_autopilot" transport env.ecmRetryId env.now
        (mkStage "ecm.approval.submit" false ("http=" ++ toString p.2.1) p.2.2,
         [ar.1.id], ar.2)
    else if simulationMode then
      let parts := ((splitArrow ecmRoute).map pyStrip).filter fun q => q != ""
      let routeSteps :=
        if parts.isEmpty then ["Юрист", "ИБ", "Финконтроль", "Руководитель"] else parts
      (mkStage "ecm.approval.submit" true "simulated"
        (Json.obj (.cons "route" (.arr (strArr routeSteps))
          (.cons "request_id" (.str ("SIM-ECM-" ++ upper (strTake env.ecmSimHex 8))) .nil))),
       [], store1)
    else
      (mkStage "ecm.approval.submit" false "skipped_not_configured" (.obj .nil), [], store1)
  let store2 := s2.2.2
  let erpEndpoint := (cfgLookup cfgO "erpEndpoint" "erp_endpoint" (.str "")).pyStr |> pyStrip
  let erpToken := (cfgLookup cfgO "erpToken" "erp_token" (.str "")).pyStr |> pyStrip
  -- the configured and the simulated branch assemble `modules` with the
  -- same four toggles; computed once here
  let modules :=
    (if (cfgLookup cfgO "erpSyncNsi" "erp_sync_nsi" (.bool true)).truthy then ["nsi"] else []) ++
    (if (cfgLookup cfgO "erpSyncBudget" "erp_sync_budget" (.bool true)).truthy then ["budget"] else []) ++
    (if (cfgLookup cfgO "erpSyncContracts" "erp_sync_contracts" (.bool true)).truthy then ["contracts"] else []) ++
    (if (cfgLookup cfgO "erpSyncLimits" "erp_sync_limits" (.bool true)).truthy then ["limits"] else [])
  let s3 :=
    if erpEndpoint != "" then
      let url := rstripSlash erpEndpoint ++ "/sync"
      let body := Json.obj (.cons "modules" (.arr (strArr modules))
        (.cons "payload" payload (.cons "procedure_id" (.str procedureId) .nil)))
      let p := httpPostJson env.net url body erpToken .nil
      if p.1 then
        (mkStage "erp.sync" true ("http=" ++ toString p.2.1) p.2.2, [], store2)
      else
        let transport := Json.obj (.cons "mode" (.str "endpoint")
          (.cons "url" (.str url)
          (.cons "token" (.str erpToken)
          (.cons "headers" (.obj .nil) .nil))))
        let ar := appendIntegrationRecord store2 "enterprise.erp.sync"
          body "enterprise_autopilot" transport env.erpRetryId env.now
        (mkStage "erp.sync" false ("http=" ++ toString p.2.1) p.2.2, [ar.1.id], ar.2)
    else if simulationMode then
      (mkStage "erp.sync" true "simulated"
        (Json.obj (.cons "modules" (.arr (strArr modules))
          (.cons "synced_items" (.num (modules.length * max 1 (itemsCount payload))) .nil))),
       [], store2)
    else
      (mkStage "erp.sync" false "skipped_not_configured" (.obj .nil), [], store2)
  let store3 := s3.2.2
  let cryptoEndpoint := (cfgLookup cfgO "cryptoEndpoint" "crypto_endpoint" (.str "")).pyStr |> pyStrip
  let cryptoToken := (cfgLookup cfgO "cryptoToken" "crypto_token" (.str "")).pyStr |> pyStrip
  let s4 :=
    if cryptoEndpoint != "" then
      let digest := sha256hex payload.dumpsSorted
      let url := rstripSlash cryptoEndpoint ++ "/sign"
      let body := Json.obj (.cons "digest_sha256" (.str digest)
        (.cons "procedure_id" (.str procedureId) .nil))
      let p := httpPostJson env.net url body cryptoToken .nil
      if p.1 then
        (mkStage "crypto.sign" true ("http=" ++ toString p.2.1) p.2.2, [], store3)
      else
        let transport := Json.obj (.cons "mode" (.str "endpoint")
          (.cons "url" (.str url)
          (.cons "token" (.str cryptoToken)
          (.cons "headers" (.obj .nil) .nil))))
        let ar := appendIntegrationRecord store3 "enterprise.crypto.sign"
          body "enterprise_autopilot" transport env.cryptoRetryId env.now
        (mkStage "crypto.sign" false ("http=" ++ toString p.2.1) p.2.2, [ar.1.id], ar.2)
    else if simulationMode then
      let digest := sha256hex payload.dumpsSorted
      (mkStage "crypto.sign" true "simulated"
        (Json.obj (.cons "digest_sha256" (.str digest)
          (.cons "signature_id" (.str ("SIM-SIGN-" ++ upper (strTake env.cryptoSimHex 10)))
          (.cons "provider"
            (.str (cfgLookup cfgO "cryptoProvider" "crypto_provider" (.str "cryptopro")).pyStr) .nil)))),
       [], store3)
    else
      (mkStage "crypto.sign" false "skipped_not_configured" (.obj .nil), [], store3)
  let store4 := s4.2.2
  let stages := [s1.1, s2.1, s3.1, s4.1]
  let queuedIds := s1.2.1 ++ s2.2.1 ++ s3.2.1 ++ s4.2.1
  let success := (stages.filter fun s => s.ok).length
  let failed := (stages.filter fun s => !s.ok && !strStartsWith s.detail "skipped_").length
  let skipped := (stages.filter fun s => strStartsWith s.detail "skipped_").length
  let result : AutopilotResult :=
    { ok := failed == 0, stagesTotal := stages.length, stagesSuccess := success,
      stagesFailed := failed, stagesSkipped := skipped,
      queuedRetryRecords := queuedIds, stages := stages }
  let entry : EntStatus :=
    { atTime := env.now, procedureId := procedureId, summarySuccess := success,
      summaryFailed := failed, summarySkipped := skipped, stages := stages }
  (result,
   { store4 with enterpriseStatus := lastSlice 2000 (store4.enterpriseStatus ++ [entry]) })

/-- The `integration_idempotency_keys` table: key to stored response JSON. -/
def IdemCache : Type := List (String × Json)

/-- `_get_idempotency_response` (`backend/main.py`): the stored response
for a key, if any (keys are unique, primary key). -/
def cacheFind : IdemCache → String → Option Json
  | [], _ => none
  | (k, v) :: rest, key => if k = key then some v else cacheFind rest key

/-- `_store_idempotency_response` (`backend/main.py`),
`INSERT OR REPLACE`: replace the row if the key exists, else insert. -/
def cacheSet : IdemCache → String → Json → IdemCache
  | [], key, v => [(key, v)]
  | (k, w) :: rest, key, v =>
    if k = key then (k, v) :: rest else (k, w) :: cacheSet rest key v

/-- The replay response `{**prev, "duplicate": True}` common to all
idempotency hits (`backend/main.py`). -/
def replayResponse (prev : Json) : Json :=
  .obj ((asObj prev).setKey "duplicate" (.bool true))

/-- The non-replayed path of `integration_event` (`backend/main.py`): append
the record with the static-webhook transport, build the
`{ok, record_id, status}` response, store it under the idempotency key when
one was supplied. -/
def integrationEventFresh (cache : IdemCache) (store : Store) (kind : String)
    (payload : Json) (source : String) (idem newId now : String) :
    Json × Store × IdemCache :=
  let ar := appendIntegrationRecord store kind payload source
    (Json.obj (.cons "mode" (.str "target_webhook") .nil)) newId now
  let response := Json.obj (.cons "ok" (.bool true)
    (.cons "record_id" (.str ar.1.id)
    (.cons "status" (.str ar.1.status) .nil)))
  (response, ar.2, if idem = "" then cache else cacheSet cache idem response)

/-- `integration_event` (`backend/main.py`): with a non-empty idempotency
key whose stored response exists (and is a truthy dict), replay it extended
with `duplicate: True` and change nothing; otherwise enqueue and answer
fresh. -/
def integrationEvent (cache : IdemCache) (store : Store) (kind : String)
    (payload : Json) (source : String) (idemKey newId now : String) :
    Json × Store × IdemCache :=
  let idem := pyStrip idemKey
  if idem = "" then
    integrationEventFresh cache store kind payload source idem newId now
  else
    match cacheFind cache idem with
    | some prev =>
      if prev.truthy then (replayResponse prev, store, cache)
      else integrationEventFresh cache store kind payload source idem newId now
    | none => integrationEventFresh cache store kind payload source idem newId now

/-- Serialization of one stage result into the response document. -/
def stageToJson (s : StageResult) : Json :=
  .obj (.cons "name" (.str s.name)
    (.cons "ok" (.bool s.ok)
    (.cons "detail" (.str s.detail)
    (.cons "data" s.data .nil))))

/-- Serialization of a stage list. -/
def stagesToArr : List StageResult → JsonArr
  | [] => .nil
  | s :: rest => .cons (stageToJson s) (stagesToArr rest)

/-- Serialization of the autopilot result dict into the response document. -/
def resultToJson (r : AutopilotResult) : Json :=
  .obj (.cons "ok" (.bool r.ok)
    (.cons "stages_total" (.num r.stagesTotal)
    (.cons "stages_success" (.num r.stagesSuccess)
    (.cons "stages_failed" (.num r.stagesFailed)
    (.cons "stages_skipped" (.num r.stagesSkipped)
    (.cons "queued_retry_records" (.arr (strArr r.queuedRetryRecords))
    (.cons "stages" (.arr (stagesToArr r.stages)) .nil)))))))

/-- The non-replayed path of the `enterprise_autopilot` endpoint
(`backend/main.py`): run the orchestrator on the trimmed procedure id,
append the immutable chain entry when `immutable_audit` is on (default),
build the `{ok, access, result, immutable_audit}` response, store it under
the idempotency key when one was supplied. -/
def enterpriseAutopilotFresh (cache : IdemCache) (store : Store)
    (chain : List ChainEntry) (cfg : Cfg) (env : AutoEnv)
    (payload settings : Json) (procedureId idem access : String) :
    Json × Store × List ChainEntry × IdemCache :=
  let run := runEnterpriseAutopilot cfg env payload settings (pyStrip procedureId) store
  let immutableOn :=
    (cfgLookup (asObj settings) "immutableAudit" "immutable_audit" (.bool true)).truthy
  let chainPayload := Json.obj (.cons "access" (.str access)
    (.cons "procedure_id" (.str procedureId)
    (.cons "stages_success" (.num run.1.stagesSuccess)
    (.cons "stages_failed" (.num run.1.stagesFailed)
    (.cons "queued_retry_records" (.arr (strArr run.1.queuedRetryRecords)) .nil)))))
  let appended :=
    if immutableOn then
      let ap := appendImmutableAudit chain "enterprise.autopilot" chainPayload env.now
      (Json.obj (.cons "at" (.str ap.1.atTime)
        (.cons "action" (.str ap.1.action)
        (.cons "prev_hash" (.str ap.1.prevHash)
        (.cons "hash" (.str ap.1.hash) .nil)))), ap.2)
    else (Json.null, chain)
  let response := Json.obj (.cons "ok" (.bool true)
    (.cons "access" (.str access)
    (.cons "result" (resultToJson run.1)
    (.cons "immutable_audit" appended.1 .nil))))
  (response, run.2, appended.2,
   if idem = "" then cache else cacheSet cache idem response)

/-- `enterprise_autopilot` (`backend/main.py`): same idempotency replay
shell as `integration_event`, around the orchestrator run. -/
def enterpriseAutopilotEndpoint (cache : IdemCache) (store : Store)
    (chain : List ChainEntry) (cfg : Cfg) (env : AutoEnv)
    (payload settings : Json) (procedureId idemKey access : String) :
    Json × Store × List ChainEntry × IdemCache :=
  let idem := pyStrip idemKey
  if idem = "" then
    enterpriseAutopilotFresh cache store chain cfg env payload settings procedureId idem access
  else
    match cacheFind cache idem with
    | some prev =>
      if prev.truthy then (replayResponse prev, store, chain, cache)
      else enterpriseAutopilotFresh cache store chain cfg env payload settings procedureId idem access
    | none => enterpriseAutopilotFresh cache store chain cfg env payload settings procedureId idem access

/-! ## Helper lemmas -/

/-- `lst[-n:]` is the identity on lists within the bound. -/
theorem lastSlice_of_le {α : Type} {n : Nat} {l : List α} (h : l.length ≤ n) :
    lastSlice n l = l := by
  simp [lastSlice]
  omega

/-- `INSERT OR REPLACE` then `SELECT` of the same key reads the written row. -/
theorem cacheFind_set_self (c : IdemCache) (k : String) (v : Json) :
    cacheFind (cacheSet c k v) k = some v := by
  induction c with
  | nil => simp [cacheSet, cacheFind]
  | cons kv rest ih =>
    by_cases h : kv.1 = k
    · simp [cacheSet, h, cacheFind]
    · simp [cacheSet, h, cacheFind, ih]

/-- The chain tip seen from an arbitrary running hash. -/
def chainTipOr (g : String) (c : List ChainEntry) : String :=
  match c.getLast? with
  | some e => e.hash
  | none => g

theorem chainTip_eq_chainTipOr (c : List ChainEntry) :
    chainTip c = chainTipOr "genesis" c := rfl

theorem chainTipOr_cons (g : String) (x : ChainEntry) (rest : List ChainEntry) :
    chainTipOr g (x :: rest) = chainTipOr x.hash rest := by
  cases rest with
  | nil => simp [chainTipOr]
  | cons y ys =>
    show chainTipOr g (x :: y :: ys) = chainTipOr x.hash (y :: ys)
    cases h : (y :: ys).getLast? with
    | none => exact absurd h (by simp)
    | some z => simp [chainTipOr, List.getLast?_cons_cons, h]

/-- One verification step unfolded to propositional form. -/
theorem verifyChainFrom_cons_iff (g : String) (e : ChainEntry)
    (rest : List ChainEntry) :
    verifyChainFrom g (e :: rest) = true ↔
      e.prevHash = g ∧
      e.hash = sha256hex (chainBase e.atTime e.action e.payloadJson e.prevHash) ∧
      verifyChainFrom e.hash rest = true := by
  show (_ && _ && _) = true ↔ _
  rw [Bool.and_eq_true, Bool.and_eq_true, beq_iff_eq, beq_iff_eq, and_assoc]

/-- Appending a correctly linked, correctly hashed entry preserves chain
verification. -/
theorem verifyChainFrom_append (e : ChainEntry) :
    ∀ (c : List ChainEntry) (g : String), verifyChainFrom g c = true →
      e.prevHash = chainTipOr g c →
      e.hash = sha256hex (chainBase e.atTime e.action e.payloadJson e.prevHash) →
      verifyChainFrom g (c ++ [e]) = true := by
  intro c
  induction c with
  | nil =>
    intro g _ hprev hhash
    simp [chainTipOr] at hprev
    rw [List.nil_append, verifyChainFrom_cons_iff]
    exact ⟨hprev, hhash, rfl⟩
  | cons x rest ih =>
    intro g hver hprev hhash
    rw [verifyChainFrom_cons_iff] at hver
    rw [List.cons_append, verifyChainFrom_cons_iff]
    refine ⟨hver.1, hver.2.1, ?_⟩
    exact ih x.hash hver.2.2 (by rw [hprev, chainTipOr_cons]) hhash

/-- Every chain grown by `_append_immutable_audit` from a verified chain
stays verified. -/
theorem verifyChain_buildChainFrom :
    ∀ (inputs : List (String × String × Json)) (c : List ChainEntry),
      verifyChain c = true → verifyChain (buildChainFrom c inputs) = true := by
  intro inputs
  induction inputs with
  | nil => intro c h; exact h
  | cons i rest ih =>
    intro c h
    refine ih _ ?_
    exact verifyChainFrom_append _ c "genesis" h rfl rfl

/-- On a verified chain, forward recomputation from `genesis` reproduces
every stored hash. -/
theorem recomputeHashes_eq_of_verified :
    ∀ (c : List ChainEntry) (g : String), verifyChainFrom g c = true →
      recomputeHashes g c = c.map (fun e => e.hash) := by
  intro c
  induction c with
  | nil => intro g _; rfl
  | cons e rest ih =>
    intro g hver
    rw [verifyChainFrom_cons_iff] at hver
    obtain ⟨hprev, hhash, hrest⟩ := hver
    show sha256hex (chainBase e.atTime e.action e.payloadJson g) ::
        recomputeHashes (sha256hex (chainBase e.atTime e.action e.payloadJson g)) rest = _
    rw [← hprev, ← hhash, ih e.hash hrest, List.map_cons]

/-- The per-record outcome of a flush pass when dispatch succeeds: the
bumped record marked sent (destined for `history`), else `none`. -/
def sentOutcome (cfg : Cfg) (net : Net) (now : String) (r : Record) :
    Option Record :=
  let r1 := bumped now r
  let d := dispatchRecord cfg net now r1
  if d.1 then some (markSent now d.2 r1) else none

/-- The per-record outcome of the source-tree flush when dispatch fails:
the bumped record re-queued with the diagnostic, else `none`. -/
def requeueOutcome (cfg : Cfg) (net : Net) (now : String) (r : Record) :
    Option Record :=
  let r1 := bumped now r
  let d := dispatchRecord cfg net now r1
  if d.1 then none else some (markRequeued d.2 r1)

/-- The spec-modelled flush outcome for a retryable failure: dispatch
failed and the bumped attempts are still below `max_attempts`. -/
def specRequeueOutcome (cfg : Cfg) (net : Net) (now : String) (r : Record) :
    Option Record :=
  let r1 := bumped now r
  let d := dispatchRecord cfg net now r1
  if !d.1 && !(cfg.maxAttempts ≤ r1.attempts : Bool) then
    some (markRequeued d.2 r1)
  else none

/-- The spec-modelled flush outcome for a terminal failure: dispatch failed
with the bumped attempts at or past `max_attempts`, the record dead-letters. -/
def deadOutcome (cfg : Cfg) (net : Net) (now : String) (r : Record) :
    Option Record :=
  let r1 := bumped now r
  let d := dispatchRecord cfg net now r1
  if !d.1 && (cfg.maxAttempts ≤ r1.attempts : Bool) then
    some (markDeadLetter now d.2 r1)
  else none

/-- Closed form of the source-tree flush loop: the first `limit - idx`
records are processed (bumped, dispatched, split into sent and re-queued by
outcome, in order), the rest pass through untouched behind the re-queued
failures. -/
theorem flushGo_eq (cfg : Cfg) (net : Net) (now : String) (limit : Nat)
    (q : List Record) : ∀ idx : Nat,
    flushGo cfg net now limit idx q =
      ((min (limit - idx) q.length,
        ((q.take (limit - idx)).filterMap (sentOutcome cfg net now)).length,
        ((q.take (limit - idx)).filterMap (requeueOutcome cfg net now)).length),
       (q.take (limit - idx)).filterMap (requeueOutcome cfg net now) ++
         q.drop (limit - idx),
       (q.take (limit - idx)).filterMap (sentOutcome cfg net now)) := by
  induction q with
  | nil => intro idx; simp [flushGo]
  | cons r rest ih =>
    intro idx
    by_cases h : limit ≤ idx
    · have h0 : limit - idx = 0 := Nat.sub_eq_zero_of_le h
      have h1 : limit - (idx + 1) = 0 :=
        Nat.sub_eq_zero_of_le (Nat.le_trans h (Nat.le_succ idx))
      rw [flushGo, if_pos h, ih (idx + 1), h0, h1]
      simp
    · have hsub : limit - idx = (limit - (idx + 1)) + 1 := by omega
      rw [flushGo, if_neg h, ih (idx + 1), hsub]
      cases hok : (dispatchRecord cfg net now (bumped now r)).1 with
      | true =>
        simp [hok, sentOutcome, requeueOutcome, List.filterMap_cons,
          Nat.succ_min_succ]
      | false =>
        simp [hok, sentOutcome, requeueOutcome, List.filterMap_cons,
          Nat.succ_min_succ]

/-- Closed form of the spec-modelled flush loop: as `flushGo_eq`, with the
failures further split into re-queued (attempts below `max_attempts`) and
dead-lettered (attempts at `max_attempts`). -/
theorem flushSpecGo_eq (cfg : Cfg) (net : Net) (now : String) (limit : Nat)
    (q : List Record) : ∀ idx : Nat,
    flushSpecGo cfg net now limit idx q =
      ((min (limit - idx) q.length,
        ((q.take (limit - idx)).filterMap (sentOutcome cfg net now)).length,
        ((q.take (limit - idx)).filterMap (specRequeueOutcome cfg net now)).length +
          ((q.take (limit - idx)).filterMap (deadOutcome cfg net now)).length,
        ((q.take (limit - idx)).filterMap (deadOutcome cfg net now)).length),
       (q.take (limit - idx)).filterMap (specRequeueOutcome cfg net now) ++
         q.drop (limit - idx),
       (q.take (limit - idx)).filterMap (sentOutcome cfg net now),
       (q.take (limit - idx)).filterMap (deadOutcome cfg net now)) := by
  induction q with
  | nil => intro idx; simp [flushSpecGo]
  | cons r rest ih =>
    intro idx
    by_cases h : limit ≤ idx
    · have h0 : limit - idx = 0 := Nat.sub_eq_zero_of_le h
      have h1 : limit - (idx + 1) = 0 :=
        Nat.sub_eq_zero_of_le (Nat.le_trans h (Nat.le_succ idx))
      rw [flushSpecGo, if_pos h, ih (idx + 1), h0, h1]
      simp
    · have hsub : limit - idx = (limit - (idx + 1)) + 1 := by omega
      rw [flushSpecGo, if_neg h, ih (idx + 1), hsub]
      cases hok : (dispatchRecord cfg net now (bumped now r)).1 with
      | true =>
        simp [hok, sentOutcome, specRequeueOutcome, deadOutcome,
          List.filterMap_cons, Nat.succ_min_succ]
      | false =>
        by_cases hmax : cfg.maxAttempts ≤ (bumped now r).attempts
        · simp [hok, hmax, sentOutcome, specRequeueOutcome, deadOutcome,
            List.filterMap_cons, Nat.succ_min_succ]
          omega
        · simp [hok, hmax, sentOutcome, specRequeueOutcome, deadOutcome,
            List.filterMap_cons, Nat.succ_min_succ]
          omega

/-! ## Concrete fixtures -/

/-- A network where every outbound call fails with a connection error
(an unreachable sink). -/
def unreachableNet : Net :=
  { post := fun _ _ _ _ => .urlError "unreachable",
    get := fun _ _ => .urlError "unreachable" }

/-- The static-webhook transport `integration_event` always enqueues. -/
def targetTransport : Json :=
  Json.obj (.cons "mode" (.str "target_webhook") .nil)

/-- A store holding exactly one freshly enqueued record. -/
def oneRecordStore : Store :=
  (appendIntegrationRecord {} "integration.event" (.obj .nil) "ui"
    targetTransport "id-1" "t0").2

/-- A configured but unreachable sink with `max_attempts = 2`
(spec Scenario B). -/
def scenarioBCfg : Cfg :=
  { targetWebhookUrl := "http://sink.example/hook", maxAttempts := 2 }

/-- Three audit-chain appends used for the concrete tamper check. -/
def c4Inputs : List (String × String × Json) :=
  [("t1", "enterprise.autopilot", .obj (.cons "b" (.num 1) (.cons "a" (.str "x") .nil))),
   ("t2", "enterprise.autopilot", .obj (.cons "doc" (.str "y") .nil)),
   ("t3", "other.action", .obj .nil)]

/-- The chain of `c4Inputs` with the middle entry's payload snapshot
mutated in place (stored hashes untouched). -/
def c4Tampered : List ChainEntry :=
  match buildChain c4Inputs with
  | [e0, e1, e2] =>
    [e0, { e1 with payloadJson := (Json.obj (.cons "doc" (.str "z") .nil)).dumpsSorted }, e2]
  | l => l

/-! ## Claims -/

set_option maxRecDepth 1000000 in
/-- C4: every chain grown by `_append_immutable_audit` verifies — each
entry links to the previous stored hash (genesis sentinel first) and its
hash is the SHA-256 of `at|action|canonical(payload)|prev_hash` — and
forward recomputation from genesis reproduces every stored hash; mutating
one entry's payload breaks recomputation for that entry and every entry
after it (shown on a concrete three-entry chain tampered at index 1),
and whole-chain verification then fails. -/
theorem c4_hash_chain_integrity :
    (∀ inputs : List (String × String × Json),
        verifyChain (buildChain inputs) = true ∧
        recomputeHashes "genesis" (buildChain inputs) =
          (buildChain inputs).map (fun e => e.hash)) ∧
    (∀ (chain : List ChainEntry) (action : String) (payload : Json) (t : String),
        (appendImmutableAudit chain action payload t).1.prevHash = chainTip chain ∧
        (appendImmutableAudit chain action payload t).1.hash =
          sha256hex (chainBase t action payload.dumpsSorted (chainTip chain))) ∧
    ((recomputeHashes "genesis" c4Tampered).zip (c4Tampered.map fun e => e.hash)).map
        (fun p => p.1 == p.2) = [true, false, false] ∧
    verifyChain c4Tampered = false :=
  ⟨fun inputs =>
    ⟨verifyChain_buildChainFrom inputs [] rfl,
     recomputeHashes_eq_of_verified _ "genesis" (verifyChain_buildChainFrom inputs [] rfl)⟩,
   fun _ _ _ _ => ⟨rfl, rfl⟩,
   by decide,
   by decide⟩

/-- C8: a flush pass processes at most `limit` records, exactly the first
`min limit |queue|` of them (oldest first); the queue afterwards is the
in-order re-queued failures of the processed batch followed by the
untouched remainder in its original order, so insertion order is preserved,
never reset. (Hypothesis: the queue is within its 3000-record capacity, the
invariant `append_integration_record` maintains.) -/
theorem c8_flush_order_and_limit (cfg : Cfg) (net : Net) (now : String)
    (store : Store) (limit : Nat) (h : store.queue.length ≤ 3000) :
    (flushIntegrationQueue cfg net now store limit).1.processed =
        min limit store.queue.length ∧
    (flushIntegrationQueue cfg net now store limit).1.processed ≤ limit ∧
    (flushIntegrationQueue cfg net now store limit).2.queue =
      (store.queue.take limit).filterMap (requeueOutcome cfg net now) ++
        store.queue.drop limit := by
  have hlen : ((store.queue.take limit).filterMap (requeueOutcome cfg net now) ++
      store.queue.drop limit).length ≤ 3000 := by
    have h1 := List.length_filterMap_le (requeueOutcome cfg net now) (store.queue.take limit)
    have h2 : (store.queue.take limit).length = min limit store.queue.length :=
      List.length_take limit store.queue
    have h3 : (store.queue.drop limit).length = store.queue.length - limit :=
      List.length_drop limit store.queue
    rw [List.length_append]
    omega
  simp only [flushIntegrationQueue, flushGo_eq cfg net now limit store.queue 0,
    Nat.sub_zero, lastSlice_of_le hlen]
  exact ⟨by trivial, Nat.min_le_left _ _, by trivial⟩

/-- C8 witness: the theorem applied to a one-record queue flushed with
limit 100 against an unreachable sink. -/
theorem c8_flush_order_and_limit_witness :
    oneRecordStore.queue.length ≤ 3000 ∧
    ((flushIntegrationQueue scenarioBCfg unreachableNet "t1" oneRecordStore 100).1.processed =
        min 100 oneRecordStore.queue.length ∧
     (flushIntegrationQueue scenarioBCfg unreachableNet "t1" oneRecordStore 100).1.processed ≤ 100 ∧
     (flushIntegrationQueue scenarioBCfg unreachableNet "t1" oneRecordStore 100).2.queue =
       (oneRecordStore.queue.take 100).filterMap (requeueOutcome scenarioBCfg unreachableNet "t1") ++
         oneRecordStore.queue.drop 100) :=
  ⟨by decide,
   c8_flush_order_and_limit scenarioBCfg unreachableNet "t1" oneRecordStore 100 (by decide)⟩

set_option maxRecDepth 1000000 in
/-- C1: in the spec-modelled flush, a processed record moves to
`dead_letter` exactly when its dispatch fails with the bumped attempts
count at `max_attempts` (re-queued below it, sent on success), as the
closed-form collection equations state; `deadOutcome` is spelled out as
exactly that condition; and concretely (Scenario B, `max_attempts = 2`,
unreachable sink) the first flush dead-letters nothing while the second
dead-letters the record and leaves the queue empty. -/
theorem c1_dead_letter_exactly_at_max (cfg : Cfg) (net : Net) (now : String)
    (store : Store) (limit : Nat)
    (hq : store.queue.length ≤ 3000)
    (hh : store.history.length + store.queue.length ≤ 10000)
    (hd : store.deadLetter.length + store.queue.length ≤ 10000) :
    ((flushSpec cfg net now store limit).2.deadLetter =
        store.deadLetter ++ (store.queue.take limit).filterMap (deadOutcome cfg net now) ∧
      (flushSpec cfg net now store limit).2.queue =
        (store.queue.take limit).filterMap (specRequeueOutcome cfg net now) ++
          store.queue.drop limit ∧
      (flushSpec cfg net now store limit).2.history =
        store.history ++ (store.queue.take limit).filterMap (sentOutcome cfg net now) ∧
      (flushSpec cfg net now store limit).1.deadLettered =
        ((store.queue.take limit).filterMap (deadOutcome cfg net now)).length) ∧
    (∀ r : Record, deadOutcome cfg net now r =
        if (dispatchRecord cfg net now (bumped now r)).1 = false ∧
            cfg.maxAttempts ≤ r.attempts + 1 then
          some (markDeadLetter now (dispatchRecord cfg net now (bumped now r)).2
            (bumped now r))
        else none) ∧
    ((flushSpec scenarioBCfg unreachableNet "t1" oneRecordStore 100).1.deadLettered = 0 ∧
      (flushSpec scenarioBCfg unreachableNet "t1" oneRecordStore 100).1.queueRemaining = 1 ∧
      (flushSpec scenarioBCfg unreachableNet "t2"
          (flushSpec scenarioBCfg unreachableNet "t1" oneRecordStore 100).2 100).1.deadLettered = 1 ∧
      (flushSpec scenarioBCfg unreachableNet "t2"
          (flushSpec scenarioBCfg unreachableNet "t1" oneRecordStore 100).2 100).1.queueRemaining = 0 ∧
      (flushSpec scenarioBCfg unreachableNet "t2"
          (flushSpec scenarioBCfg unreachableNet "t1" oneRecordStore 100).2 100).2.queue.length = 0) := by
  have hTake : (store.queue.take limit).length = min limit store.queue.length :=
    List.length_take limit store.queue
  have hDrop : (store.queue.drop limit).length = store.queue.length - limit :=
    List.length_drop limit store.queue
  have hReq := List.length_filterMap_le (specRequeueOutcome cfg net now) (store.queue.take limit)
  have hSent := List.length_filterMap_le (sentOutcome cfg net now) (store.queue.take limit)
  have hDead := List.length_filterMap_le (deadOutcome cfg net now) (store.queue.take limit)
  have hq' : ((store.queue.take limit).filterMap (specRequeueOutcome cfg net now) ++
      store.queue.drop limit).length ≤ 3000 := by
    rw [List.length_append]; omega
  have hh' : (store.history ++
      (store.queue.take limit).filterMap (sentOutcome cfg net now)).length ≤ 10000 := by
    rw [List.length_append]; omega
  have hd' : (store.deadLetter ++
      (store.queue.take limit).filterMap (deadOutcome cfg net now)).length ≤ 10000 := by
    rw [List.length_append]; omega
  refine ⟨?_, ?_, ?_⟩
  · simp only [flushSpec, flushSpecGo_eq cfg net now limit store.queue 0,
      Nat.sub_zero, lastSlice_of_le hq', lastSlice_of_le hh', lastSlice_of_le hd']
    exact ⟨by trivial, by trivial, by trivial, by trivial⟩
  · intro r
    simp only [deadOutcome]
    by_cases h1 : (dispatchRecord cfg net now (bumped now r)).1
    · simp [h1]
    · by_cases h2 : cfg.maxAttempts ≤ (bumped now r).attempts
      · simp only [Bool.not_eq_true] at h1
        simp [h1, h2, show (bumped now r).attempts = r.attempts + 1 from rfl] at h2 ⊢
      · simp only [Bool.not_eq_true] at h1
        simp [h1, h2, show (bumped now r).attempts = r.attempts + 1 from rfl] at h2 ⊢
  · exact ⟨by decide, by decide, by decide, by decide, by decide⟩

/-- C1 witness: the theorem applied to the Scenario B store and
configuration. -/
theorem c1_dead_letter_exactly_at_max_witness :
    (oneRecordStore.queue.length ≤ 3000 ∧
      oneRecordStore.history.length + oneRecordStore.queue.length ≤ 10000 ∧
      oneRecordStore.deadLetter.length + oneRecordStore.queue.length ≤ 10000) ∧
    ((flushSpec scenarioBCfg unreachableNet "t1" oneRecordStore 100).2.deadLetter =
        oneRecordStore.deadLetter ++
          (oneRecordStore.queue.take 100).filterMap
            (deadOutcome scenarioBCfg unreachableNet "t1")) :=
  ⟨⟨by decide, by decide, by decide⟩,
   ((c1_dead_letter_exactly_at_max scenarioBCfg unreachableNet "t1" oneRecordStore 100
      (by decide) (by decide) (by decide)).1).1⟩

set_option maxRecDepth 1000000 in
/-- C3: Scenario A — one record enqueued with no sink configured, then
`flush(100)`: `processed = 1, success = 0, failed = 1, dead_lettered = 0`,
target not configured, and the record stays in the queue (same id, still
`queued`, attempts bumped to 1, carrying the `target_webhook_not_configured`
diagnostic); and every flush result carries the six fields
`{processed, success, failed, dead_lettered, queue_remaining,
target_configured}` with the stated meanings. -/
theorem c3_flush_result_fields_and_scenario_a :
    ((flushSpec {} unreachableNet "t1" oneRecordStore 100).1.processed = 1 ∧
      (flushSpec {} unreachableNet "t1" oneRecordStore 100).1.success = 0 ∧
      (flushSpec {} unreachableNet "t1" oneRecordStore 100).1.failed = 1 ∧
      (flushSpec {} unreachableNet "t1" oneRecordStore 100).1.deadLettered = 0 ∧
      (flushSpec {} unreachableNet "t1" oneRecordStore 100).1.queueRemaining = 1 ∧
      (flushSpec {} unreachableNet "t1" oneRecordStore 100).1.targetConfigured = false ∧
      (flushSpec {} unreachableNet "t1" oneRecordStore 100).2.queue.map
        (fun r => (r.id, r.status, r.attempts, r.lastResult)) =
        [("id-1", "queued", 1, some "target_webhook_not_configured")]) ∧
    (∀ (cfg : Cfg) (net : Net) (now : String) (store : Store) (limit : Nat),
      (flushSpec cfg net now store limit).1.processed = min limit store.queue.length ∧
      (flushSpec cfg net now store limit).1.success =
        ((store.queue.take limit).filterMap (sentOutcome cfg net now)).length ∧
      (flushSpec cfg net now store limit).1.failed =
        ((store.queue.take limit).filterMap (specRequeueOutcome cfg net now)).length +
          ((store.queue.take limit).filterMap (deadOutcome cfg net now)).length ∧
      (flushSpec cfg net now store limit).1.deadLettered =
        ((store.queue.take limit).filterMap (deadOutcome cfg net now)).length ∧
      (flushSpec cfg net now store limit).1.queueRemaining =
        (flushSpec cfg net now store limit).2.queue.length ∧
      (flushSpec cfg net now store limit).1.targetConfigured =
        (cfg.targetWebhookUrl != "")) := by
  constructor
  · exact ⟨by decide, by decide, by decide, by decide, by decide, by decide, by decide⟩
  · intro cfg net now store limit
    simp only [flushSpec, flushSpecGo_eq cfg net now limit store.queue 0, Nat.sub_zero]
    exact ⟨by trivial, by trivial, by trivial, by trivial, by trivial, by trivial⟩

/-- C2: the health snapshot reports `degraded` exactly when dead-lettered
records exist or the oldest queued record (the queue front) exceeds the
staleness threshold, and carries `queue_total`, `history_total`,
`dead_letter_total`, `oldest_queued_seconds` and `flush_24h_counts` with
their stated meanings; the default threshold is 3600 seconds. -/
theorem c2_health_snapshot_degraded_and_fields (store : Store)
    (ageSeconds : String → Nat) (flush24h : Json) (threshold : Nat) :
    ((healthSnapshot store ageSeconds flush24h threshold).status = "degraded" ↔
      ((healthSnapshot store ageSeconds flush24h threshold).deadLetterTotal ≠ 0 ∨
        ∃ a, (healthSnapshot store ageSeconds flush24h threshold).oldestQueuedSeconds = some a ∧
          threshold < a)) ∧
    ((healthSnapshot store ageSeconds flush24h threshold).status = "degraded" ∨
      (healthSnapshot store ageSeconds flush24h threshold).status = "ok") ∧
    (healthSnapshot store ageSeconds flush24h threshold).queueTotal = store.queue.length ∧
    (healthSnapshot store ageSeconds flush24h threshold).historyTotal = store.history.length ∧
    (healthSnapshot store ageSeconds flush24h threshold).deadLetterTotal =
      store.deadLetter.length ∧
    (healthSnapshot store ageSeconds flush24h threshold).oldestQueuedSeconds =
      store.queue.head?.map (fun r => ageSeconds r.createdAt) ∧
    (healthSnapshot store ageSeconds flush24h threshold).flush24hCounts = flush24h ∧
    stalenessThresholdDefault = 3600 := by
  refine ⟨?_, ?_, rfl, rfl, rfl, rfl, rfl, rfl⟩
  · cases hq : store.queue with
    | nil =>
      by_cases hdl : 0 < store.deadLetter.length
      · simp [healthSnapshot, hq, hdl]
        exact List.length_pos.mp hdl
      · simp [healthSnapshot, hq, hdl]
        exact List.length_eq_zero.mp (by omega)
    | cons r rest =>
      by_cases hdl : 0 < store.deadLetter.length
      · simp [healthSnapshot, hq, hdl]
        exact Or.inl (List.length_pos.mp hdl)
      · by_cases hstale : threshold < ageSeconds r.createdAt
        · simp [healthSnapshot, hq, hdl, hstale]
        · simp [healthSnapshot, hq, hdl, hstale]
          exact List.length_eq_zero.mp (by omega)
  · simp only [healthSnapshot]
    split
    · exact Or.inl rfl
    · exact Or.inr rfl

/-- A concrete oracle environment for an autopilot run with nothing
configured (the network is never consulted). -/
def simEnvA : AutoEnv :=
  { net := unreachableNet, now := "t0", etpRetryId := "u1", ecmRetryId := "u2",
    erpRetryId := "u3", cryptoRetryId := "u4",
    ecmSimHex := "0a1b2c3d4e5f60718293", cryptoSimHex := "ffeeddccbbaa99887766" }

/-- `simEnvA` with different fresh-uuid draws for the simulated
pseudo-identifiers. -/
def simEnvB : AutoEnv :=
  { simEnvA with ecmSimHex := "99887766554433221100",
                 cryptoSimHex := "00112233445566778899" }

set_option maxRecDepth 1000000 in
set_option maxHeartbeats 4000000 in
/-- C6: for every autopilot run, `ok` is true exactly when
`stages_failed = 0`, where `stages_failed` counts only non-skipped failing
stages and `stages_skipped` counts the `skipped_`-detail stages; and
concretely (Scenario C, all four endpoints unset, simulation mode on by
default) the run has `ok = true`, `stages_skipped = 0`, and all four stage
details start with `"simulated"`. -/
theorem c6_autopilot_ok_iff_no_failures :
    (∀ (cfg : Cfg) (env : AutoEnv) (payload settings : Json) (pid : String)
        (store : Store),
      (runEnterpriseAutopilot cfg env payload settings pid store).1.ok =
        ((runEnterpriseAutopilot cfg env payload settings pid store).1.stagesFailed == 0) ∧
      (runEnterpriseAutopilot cfg env payload settings pid store).1.stagesFailed =
        ((runEnterpriseAutopilot cfg env payload settings pid store).1.stages.filter
          fun s => !s.ok && !strStartsWith s.detail "skipped_").length ∧
      (runEnterpriseAutopilot cfg env payload settings pid store).1.stagesSkipped =
        ((runEnterpriseAutopilot cfg env payload settings pid store).1.stages.filter
          fun s => strStartsWith s.detail "skipped_").length) ∧
    ((runEnterpriseAutopilot {} simEnvA (.obj .nil) (.obj .nil) "" {}).1.ok = true ∧
      (runEnterpriseAutopilot {} simEnvA (.obj .nil) (.obj .nil) "" {}).1.stagesFailed = 0 ∧
      (runEnterpriseAutopilot {} simEnvA (.obj .nil) (.obj .nil) "" {}).1.stagesSkipped = 0 ∧
      (runEnterpriseAutopilot {} simEnvA (.obj .nil) (.obj .nil) "" {}).1.stages.map
        (fun s => strStartsWith s.detail "simulated") = [true, true, true, true] ∧
      (runEnterpriseAutopilot {} simEnvA (.obj .nil) (.obj .nil) "" {}).1.stages.map
        (fun s => s.detail) = ["simulated", "simulated", "simulated", "simulated"]) :=
  ⟨fun _ _ _ _ _ _ => ⟨rfl, rfl, rfl⟩,
   by decide, by decide, by decide, by decide, by decide⟩

/-- Stage results with the freshly generated pseudo-identifiers
(`request_id`, `signature_id`) removed from their data. -/
def stripGeneratedIds (stages : List StageResult) : List StageResult :=
  stages.map fun s =>
    { s with data := Json.obj (((asObj s.data).dropKey "request_id").dropKey "signature_id") }

/-- The settings of a run with simulation mode forced on and no stage
endpoint configured. -/
def noEndpointSimSettings : Json :=
  Json.obj (.cons "simulationMode" (.bool true) .nil)

/-- The simulated approval stage's `request_id`, extracted from a stage
list (stage index 1, `ecm.approval.submit`). -/
def simRequestIdOf (stages : List StageResult) : Option (Option String) :=
  (stages.get? 1).map fun s => ((asObj s.data).find "request_id").map Json.pyStr

set_option maxRecDepth 1000000 in
set_option maxHeartbeats 4000000 in
/-- C7 counterexample: two autopilot runs on identical payload, settings
(simulation on, no endpoints) and procedure id, differing only in the
fresh `uuid4` draws, produce different stage results — the simulated
approval `request_id` embeds the uuid — so the stand-in stage results are
not a deterministic function of payload, settings and procedure id. -/
theorem c7_counterexample_nondeterministic_ids :
    ¬((runEnterpriseAutopilot {} simEnvA (.obj .nil) noEndpointSimSettings "" {}).1.stages =
      (runEnterpriseAutopilot {} simEnvB (.obj .nil) noEndpointSimSettings "" {}).1.stages) :=
  fun h => absurd (congrArg simRequestIdOf h) (by decide)

set_option maxRecDepth 1000000 in
/-- The closed form of the four simulated stage results when simulation is
on and no endpoint is configured: the oracle environment enters only
through the two generated pseudo-identifiers. -/
theorem simStagesClosedForm (payload : Json) (pid : String) (cfg : Cfg)
    (env : AutoEnv) (store : Store) :
    (runEnterpriseAutopilot cfg env payload noEndpointSimSettings pid store).1.stages =
      [mkStage "etp.status.sync" true "simulated"
         (Json.obj (.cons "procedure_id" (.str pid)
           (.cons "status" (.str "draft")
           (.cons "source" (.str "simulation_mode") .nil)))),
       mkStage "ecm.approval.submit" true "simulated"
         (Json.obj (.cons "route" (.arr (strArr ["Юрист", "ИБ", "Финконтроль", "Руководитель"]))
           (.cons "request_id" (.str ("SIM-ECM-" ++ upper (strTake env.ecmSimHex 8))) .nil))),
       mkStage "erp.sync" true "simulated"
         (Json.obj (.cons "modules" (.arr (strArr ["nsi", "budget", "contracts", "limits"]))
           (.cons "synced_items" (.num (4 * max 1 (itemsCount payload))) .nil))),
       mkStage "crypto.sign" true "simulated"
         (Json.obj (.cons "digest_sha256" (.str (sha256hex payload.dumpsSorted))
           (.cons "signature_id" (.str ("SIM-SIGN-" ++ upper (strTake env.cryptoSimHex 10)))
           (.cons "provider" (.str "cryptopro") .nil))))] := rfl

set_option maxRecDepth 1000000 in
/-- In the same setting, no retry records are enqueued. -/
theorem simStagesNoRetries (payload : Json) (pid : String) (cfg : Cfg)
    (env : AutoEnv) (store : Store) :
    (runEnterpriseAutopilot cfg env payload noEndpointSimSettings pid store).1.queuedRetryRecords = [] := rfl

set_option maxRecDepth 1000000 in
/-- In the same setting, the run reports success. -/
theorem simStagesOk (payload : Json) (pid : String) (cfg : Cfg)
    (env : AutoEnv) (store : Store) :
    (runEnterpriseAutopilot cfg env payload noEndpointSimSettings pid store).1.ok = true := rfl

set_option maxRecDepth 1000000 in
/-- C7 amended: with simulation mode on and no endpoints configured, two
runs on the same payload and procedure id agree on all stand-in stage
results once the freshly generated pseudo-identifiers (`request_id`,
`signature_id`) are dropped — every other field, including the payload
digest, is a deterministic function of the inputs — and both runs enqueue
no retry records and report ok. -/
theorem c7_amended_deterministic_up_to_ids (payload : Json) (pid : String)
    (cfg1 cfg2 : Cfg) (env1 env2 : AutoEnv) (store1 store2 : Store) :
    stripGeneratedIds
        (runEnterpriseAutopilot cfg1 env1 payload noEndpointSimSettings pid store1).1.stages =
      stripGeneratedIds
        (runEnterpriseAutopilot cfg2 env2 payload noEndpointSimSettings pid store2).1.stages ∧
    (runEnterpriseAutopilot cfg1 env1 payload noEndpointSimSettings pid store1).1.queuedRetryRecords = [] ∧
    (runEnterpriseAutopilot cfg1 env1 payload noEndpointSimSettings pid store1).1.ok = true := by
  refine ⟨?_, simStagesNoRetries payload pid cfg1 env1 store1,
    simStagesOk payload pid cfg1 env1 store1⟩
  have e1 := congrArg stripGeneratedIds (simStagesClosedForm payload pid cfg1 env1 store1)
  have e2 := congrArg stripGeneratedIds (simStagesClosedForm payload pid cfg2 env2 store2)
  exact e1.trans (Eq.symm e2)

/-- The first `integration_event` call of the C5/C10 concrete scenario:
empty cache, empty store, idempotency key `"key-1"`. -/
def c5First : Json × Store × IdemCache :=
  integrationEvent [] {} "integration.event" (.obj .nil) "ui" "key-1" "id-1" "t0"

/-- The second call with the same idempotency key (and a fresh uuid). -/
def c5Second : Json × Store × IdemCache :=
  integrationEvent c5First.2.2 c5First.2.1 "integration.event" (.obj .nil) "ui"
    "key-1" "id-2" "t1"

/-- C5 counterexample: two `integration_event` calls with the same
non-empty idempotency key do not return the same response — the replay is
the stored response extended with `duplicate: True`, so the two response
documents differ at the `duplicate` key. -/
theorem c5_counterexample_responses_differ : ¬(c5Second.1 = c5First.1) :=
  fun h =>
    absurd (congrArg (fun j => ((asObj j).find "duplicate").map Json.pyStr) h)
      (by decide)

/-- C5 amended: two `enqueue` calls with the same non-empty idempotency key
(first unseen, queue within capacity) create exactly one new Record; the
second call replays the stored first response, extended with
`duplicate: True`, and changes neither store nor cache. -/
theorem c5_amended_one_record_first_response_replayed
    (cache : IdemCache) (store : Store) (kind : String) (payload : Json)
    (source key id1 t1 id2 t2 : String)
    (hkey : ¬(pyStrip key = ""))
    (hmiss : cacheFind cache (pyStrip key) = none)
    (hcap : store.queue.length < 3000) :
    (integrationEvent
        (integrationEvent cache store kind payload source key id1 t1).2.2
        (integrationEvent cache store kind payload source key id1 t1).2.1
        kind payload source key id2 t2).1 =
      replayResponse (integrationEvent cache store kind payload source key id1 t1).1 ∧
    (integrationEvent
        (integrationEvent cache store kind payload source key id1 t1).2.2
        (integrationEvent cache store kind payload source key id1 t1).2.1
        kind payload source key id2 t2).2.1 =
      (integrationEvent cache store kind payload source key id1 t1).2.1 ∧
    (integrationEvent
        (integrationEvent cache store kind payload source key id1 t1).2.2
        (integrationEvent cache store kind payload source key id1 t1).2.1
        kind payload source key id2 t2).2.2 =
      (integrationEvent cache store kind payload source key id1 t1).2.2 ∧
    (integrationEvent cache store kind payload source key id1 t1).2.1.queue.length =
      store.queue.length + 1 := by
  have hcap' : (store.queue ++
      [{ id := id1, kind := kind, source := source, createdAt := t1,
         status := "queued", attempts := 0, payload := payload,
         transport := Json.obj (.cons "mode" (.str "target_webhook") .nil) : Record }]).length ≤ 3000 := by
    rw [List.length_append, List.length_singleton]
    omega
  have hfirst : integrationEvent cache store kind payload source key id1 t1 =
      integrationEventFresh cache store kind payload source (pyStrip key) id1 t1 := by
    simp only [integrationEvent, hmiss, if_neg hkey]
  have hfresh : integrationEventFresh cache store kind payload source (pyStrip key) id1 t1 =
      (Json.obj (.cons "ok" (.bool true)
        (.cons "record_id" (.str id1)
        (.cons "status" (.str "queued") .nil))),
       { store with queue := store.queue ++
          [{ id := id1, kind := kind, source := source, createdAt := t1,
             status := "queued", attempts := 0, payload := payload,
             transport := Json.obj (.cons "mode" (.str "target_webhook") .nil) }] },
       cacheSet cache (pyStrip key)
         (Json.obj (.cons "ok" (.bool true)
           (.cons "record_id" (.str id1)
           (.cons "status" (.str "queued") .nil))))) := by
    simp only [integrationEventFresh, appendIntegrationRecord, lastSlice_of_le hcap',
      if_neg hkey]
  rw [hfirst, hfresh]
  refine ⟨?_, ?_, ?_, ?_⟩
  · simp only [integrationEvent, if_neg hkey, cacheFind_set_self]
    rfl
  · simp only [integrationEvent, if_neg hkey, cacheFind_set_self]
    rfl
  · simp only [integrationEvent, if_neg hkey, cacheFind_set_self]
    rfl
  · simp [List.length_append]

/-- C5 witness: the amended theorem applied to the concrete two-call
scenario. -/
theorem c5_amended_witness :
    (¬(pyStrip "key-1" = "") ∧ cacheFind [] (pyStrip "key-1") = none ∧
      ({} : Store).queue.length < 3000) ∧
    ((integrationEvent
        (integrationEvent [] {} "integration.event" (.obj .nil) "ui" "key-1" "id-1" "t0").2.2
        (integrationEvent [] {} "integration.event" (.obj .nil) "ui" "key-1" "id-1" "t0").2.1
        "integration.event" (.obj .nil) "ui" "key-1" "id-2" "t1").1 =
      replayResponse
        (integrationEvent [] {} "integration.event" (.obj .nil) "ui" "key-1" "id-1" "t0").1) :=
  ⟨⟨by decide, rfl, by decide⟩,
   (c5_amended_one_record_first_response_replayed [] {} "integration.event"
      (.obj .nil) "ui" "key-1" "id-1" "t0" "id-2" "t1"
      (by decide) rfl (by decide)).1⟩

/-- C9 counterexample: enqueueing a record with an unknown transport mode
(`"bogus"`) succeeds silently — the record enters the queue as `"queued"`
with no error signalled to the caller — and the failure surfaces only
later, at dispatch, as `unsupported_transport_mode:bogus`; so a caller
input failure is not reported synchronously at enqueue. -/
theorem c9_counterexample_unknown_mode_accepted :
    (appendIntegrationRecord {} "integration.event" (.obj .nil) "ui"
        (Json.obj (.cons "mode" (.str "bogus") .nil)) "id-1" "t0").1.status = "queued" ∧
    (appendIntegrationRecord {} "integration.event" (.obj .nil) "ui"
        (Json.obj (.cons "mode" (.str "bogus") .nil)) "id-1" "t0").2.queue.length = 1 ∧
    dispatchRecord {} unreachableNet "t1"
        (appendIntegrationRecord {} "integration.event" (.obj .nil) "ui"
          (Json.obj (.cons "mode" (.str "bogus") .nil)) "id-1" "t0").1 =
      (false, "unsupported_transport_mode:bogus") :=
  ⟨by decide, by decide, by decide⟩

/-- C9 amended: an unknown transport mode supplied at enqueue is accepted —
the record is created `"queued"` with no synchronous error — and the
failure is reported at dispatch time with the diagnostic
`unsupported_transport_mode:<mode>`; a flush then re-queues the record with
that diagnostic stored in `last_result`, so the failure is never silently
dropped (malformed request bodies are rejected by the web layer's request
validation, outside this core). -/
theorem c9_amended_unknown_mode_deferred_diagnostic
    (m : String) (store : Store) (kind : String) (payload : Json)
    (source newId now : String) (cfg : Cfg) (net : Net) (now2 : String)
    (h1 : ¬(pyStrip m = "target_webhook")) (h2 : ¬(pyStrip m = "endpoint"))
    (hcap : store.queue.length < 3000) :
    (appendIntegrationRecord store kind payload source
        (Json.obj (.cons "mode" (.str m) .nil)) newId now).1.status = "queued" ∧
    (appendIntegrationRecord store kind payload source
        (Json.obj (.cons "mode" (.str m) .nil)) newId now).2.queue =
      store.queue ++ [(appendIntegrationRecord store kind payload source
        (Json.obj (.cons "mode" (.str m) .nil)) newId now).1] ∧
    dispatchRecord cfg net now2
        (appendIntegrationRecord store kind payload source
          (Json.obj (.cons "mode" (.str m) .nil)) newId now).1 =
      (false, "unsupported_transport_mode:" ++ pyStrip m) ∧
    requeueOutcome cfg net now2
        (appendIntegrationRecord store kind payload source
          (Json.obj (.cons "mode" (.str m) .nil)) newId now).1 =
      some (markRequeued ("unsupported_transport_mode:" ++ pyStrip m)
        (bumped now2 (appendIntegrationRecord store kind payload source
          (Json.obj (.cons "mode" (.str m) .nil)) newId now).1)) := by
  have hdisp : ∀ r : Record,
      r.transport = Json.obj (.cons "mode" (.str m) .nil) →
      dispatchRecord cfg net now2 r =
        (false, "unsupported_transport_mode:" ++ pyStrip m) := by
    intro r hr
    simp [dispatchRecord, hr, asObj, objGet, JsonObj.find, Json.pyStr, h1, h2]
  have hcap' : (store.queue ++
      [{ id := newId, kind := kind, source := source, createdAt := now,
         status := "queued", attempts := 0, payload := payload,
         transport := Json.obj (.cons "mode" (.str m) .nil) : Record }]).length ≤ 3000 := by
    rw [List.length_append, List.length_singleton]
    omega
  refine ⟨rfl, ?_, ?_, ?_⟩
  · simp only [appendIntegrationRecord, lastSlice_of_le hcap']
  · exact hdisp _ rfl
  · simp only [requeueOutcome]
    rw [hdisp (bumped now2 (appendIntegrationRecord store kind payload source
      (Json.obj (.cons "mode" (.str m) .nil)) newId now).1) rfl]
    simp

/-- C9 witness: the amended theorem applied at mode `"bogus"` on the empty
store. -/
theorem c9_amended_witness :
    (¬(pyStrip "bogus" = "target_webhook") ∧ ¬(pyStrip "bogus" = "endpoint") ∧
      ({} : Store).queue.length < 3000) ∧
    dispatchRecord {} unreachableNet "t1"
        (appendIntegrationRecord {} "integration.event" (.obj .nil) "ui"
          (Json.obj (.cons "mode" (.str "bogus") .nil)) "id-1" "t0").1 =
      (false, "unsupported_transport_mode:" ++ pyStrip "bogus") :=
  ⟨⟨by decide, by decide, by decide⟩,
   (c9_amended_unknown_mode_deferred_diagnostic "bogus" {} "integration.event"
      (.obj .nil) "ui" "id-1" "t0" {} unreachableNet "t1"
      (by decide) (by decide) (by decide)).2.2.1⟩

/-- A stored demo response for the C10 witness. -/
def demoStoredResponse : Json :=
  Json.obj (.cons "ok" (.bool true) (.cons "record_id" (.str "id-0") .nil))

/-- C10: a replayed request returns the stored first response extended with
`duplicate: True` (`{**prev, "duplicate": True}`), for both the
`integration_event` and the `enterprise_autopilot` endpoint, while a fresh
(non-replayed) response of either endpoint has no `duplicate` key — so a
caller can always distinguish a replay from the original response. -/
theorem c10_replay_carries_duplicate_marker :
    (∀ (cache : IdemCache) (store : Store) (kind : String) (payload : Json)
        (source key newId now : String) (prev : Json),
      ¬(pyStrip key = "") → cacheFind cache (pyStrip key) = some prev →
      prev.truthy = true →
      (integrationEvent cache store kind payload source key newId now).1 =
        replayResponse prev) ∧
    (∀ (cache : IdemCache) (store : Store) (kind : String) (payload : Json)
        (source key newId now : String),
      pyStrip key = "" ∨ cacheFind cache (pyStrip key) = none →
      (asObj (integrationEvent cache store kind payload source key newId now).1).find
        "duplicate" = none) ∧
    (∀ (cache : IdemCache) (store : Store) (chain : List ChainEntry) (cfg : Cfg)
        (env : AutoEnv) (payload settings : Json) (pid key access : String)
        (prev : Json),
      ¬(pyStrip key = "") → cacheFind cache (pyStrip key) = some prev →
      prev.truthy = true →
      (enterpriseAutopilotEndpoint cache store chain cfg env payload settings
        pid key access).1 = replayResponse prev) ∧
    (∀ (cache : IdemCache) (store : Store) (chain : List ChainEntry) (cfg : Cfg)
        (env : AutoEnv) (payload settings : Json) (pid key access : String),
      pyStrip key = "" ∨ cacheFind cache (pyStrip key) = none →
      (asObj (enterpriseAutopilotEndpoint cache store chain cfg env payload
        settings pid key access).1).find "duplicate" = none) ∧
    (∀ prev : Json, replayResponse prev =
      Json.obj ((asObj prev).setKey "duplicate" (.bool true))) := by
  refine ⟨?_, ?_, ?_, ?_, fun _ => rfl⟩
  · intro cache store kind payload source key newId now prev hkey hhit htr
    simp only [integrationEvent, if_neg hkey, hhit, htr, if_pos]
  · intro cache store kind payload source key newId now hc
    rcases hc with hkey | hmiss
    · simp only [integrationEvent, if_pos hkey, integrationEventFresh]
      rfl
    · by_cases hkey : pyStrip key = ""
      · simp only [integrationEvent, if_pos hkey, integrationEventFresh]
        rfl
      · simp only [integrationEvent, if_neg hkey, hmiss, integrationEventFresh]
        rfl
  · intro cache store chain cfg env payload settings pid key access prev hkey hhit htr
    simp only [enterpriseAutopilotEndpoint, if_neg hkey, hhit, htr, if_pos]
  · intro cache store chain cfg env payload settings pid key access hc
    rcases hc with hkey | hmiss
    · simp only [enterpriseAutopilotEndpoint, if_pos hkey, enterpriseAutopilotFresh]
      rfl
    · by_cases hkey : pyStrip key = ""
      · simp only [enterpriseAutopilotEndpoint, if_pos hkey, enterpriseAutopilotFresh]
        rfl
      · simp only [enterpriseAutopilotEndpoint, if_neg hkey, hmiss,
          enterpriseAutopilotFresh]
        rfl

/-- C10 witness: the replay conjunct applied to a one-entry cache holding a
stored response under key `"k"`. -/
theorem c10_replay_carries_duplicate_marker_witness :
    (¬(pyStrip "k" = "") ∧ cacheFind [("k", demoStoredResponse)] (pyStrip "k") =
        some demoStoredResponse ∧ demoStoredResponse.truthy = true) ∧
    (integrationEvent [("k", demoStoredResponse)] {} "integration.event"
        (.obj .nil) "ui" "k" "id-1" "t0").1 = replayResponse demoStoredResponse :=
  ⟨⟨by decide, rfl, by decide⟩,
   c10_replay_carries_duplicate_marker.1 [("k", demoStoredResponse)] {}
     "integration.event" (.obj .nil) "ui" "k" "id-1" "t0" demoStoredResponse
     (by decide) rfl (by decide)⟩

end Testzak
